import Mathlib

/-!
Shallow embedding of the GTFS-Viewer core (`gtfsviewer.py`) and proofs about
its behaviour.

Cells of the in-memory tables (pandas DataFrames read from the GTFS CSV
files) are modelled by `Value`: an integer, a string, or the missing value
NaN.  Elementwise comparison of a column against a Python scalar
(`df[col] == x`) is `rawEq` (NaN compares unequal to everything); key
matching used by `merge`/`isin` (which does match NaN to NaN) is structural
equality on `Value`.
-/

namespace GTFSViewer

inductive Value where
  | vInt (n : Int)
  | vStr (s : String)
  | vNull
deriving DecidableEq

open Value

/-- Python `str()` applied to a cell (str of an int, identity on a string,
`str(nan) = "nan"`); models `astype(str)` on a column and `str(row[col])`. -/
def Value.pyStr : Value → String
  | vInt n => toString n
  | vStr s => s
  | vNull => "nan"

/-- pandas elementwise `==` between a cell and a scalar: equal only when the
types agree and the payloads are equal; NaN is unequal to everything. -/
def rawEq : Value → Value → Bool
  | vInt a, vInt b => decide (a = b)
  | vStr a, vStr b => decide (a = b)
  | _, _ => false

def isPyDigit (c : Char) : Bool := 48 ≤ c.toNat && c.toNat ≤ 57

def isPySpace (c : Char) : Bool := c = ' ' || c = '\t' || c = '\n' || c = '\r'

/-- Python `int(s)`: surrounding whitespace stripped, optional sign, at
least one digit; `none` models the `ValueError` branch of the source's
`try: route_id_int = int(route_id)`. -/
def parseInt? (s : String) : Option Int :=
  let cs := ((s.toList.dropWhile isPySpace).reverse.dropWhile isPySpace).reverse
  match cs with
  | [] => none
  | c :: rest =>
    let p := if c = '-' then (true, rest) else if c = '+' then (false, rest) else (false, c :: rest)
    if p.2 ≠ [] ∧ p.2.all isPyDigit then
      let n : Nat := p.2.foldl (fun acc ch => acc * 10 + (ch.toNat - 48)) 0
      some (if p.1 then -(n : Int) else (n : Int))
    else none

/-- Splitting a character list on a separator character, Python
`str.split(sep)` semantics (an empty string yields one empty part, a
trailing separator a trailing empty part). -/
def splitOnChar (sep : Char) : List Char → List (List Char)
  | [] => [[]]
  | c :: rest =>
    let r := splitOnChar sep rest
    if c = sep then [] :: r
    else
      match r with
      | h :: t => (c :: h) :: t
      | [] => [[c]]

/-- `folder_id.split('/')` (source lines 117, 182). -/
def pySplitSlash (s : String) : List String :=
  (splitOnChar '/' s.toList).map (fun l => String.mk l)

/-- Boolean membership of a cell in a list of cells, by structural equality
(models pandas `isin` / Python `in`, both of which match NaN to NaN). -/
def valMem (x : Value) (l : List Value) : Bool :=
  l.any (fun y => decide (y = x))

/-- Helper for `pdUnique`: keep the elements not yet seen. -/
def pdUniqueAux (seen : List Value) : List Value → List Value
  | [] => []
  | x :: xs => if valMem x seen then pdUniqueAux seen xs else x :: pdUniqueAux (x :: seen) xs

/-- pandas `Series.unique()`: deduplicate keeping first occurrences. -/
def pdUnique (l : List Value) : List Value :=
  pdUniqueAux [] l

/-- A row of `trips.txt` (the columns the source consults). -/
structure TripRow where
  trip_id : Value
  route_id : Value
  service_id : Value
  shape_id : Value
deriving DecidableEq

/-- The trips DataFrame: its column-name list (consulted by
`'shape_id' in route_trips.columns`) and its rows. -/
structure TripsTable where
  cols : List String
  rows : List TripRow
deriving DecidableEq

/-- The tri-comparison of `get_route_details` (source lines 222-237): a trip
row's `route_id` cell matches the target string when it equals it as a raw
value, or equals its integer parse when that parse succeeds, or its string
coercion equals the target. -/
def tripMatchesRoute (route_id : String) (v : Value) : Bool :=
  match parseInt? route_id with
  | some n => rawEq v (vStr route_id) || rawEq v (vInt n) || decide (v.pyStr = route_id)
  | none => rawEq v (vStr route_id) || decide (v.pyStr = route_id)

/-- `route_trips`: the trips whose `route_id` matches the target
(source line 230 / 237). -/
def filterTripsByRoute (trips : List TripRow) (route_id : String) : List TripRow :=
  trips.filter (fun t => tripMatchesRoute route_id t.route_id)

/-- A row of `calendar.txt`; `start_date`/`end_date` carry the
`astype(int)` coercion the source applies before comparing. -/
structure CalendarRow where
  service_id : Value
  start_date : Int
  end_date : Int
  monday : Value
  tuesday : Value
  wednesday : Value
  thursday : Value
  friday : Value
  saturday : Value
  sunday : Value
deriving DecidableEq

/-- The calendar DataFrame with its column-name list (the source checks
`weekday_column in calendar_df.columns`). -/
structure CalendarTable where
  cols : List String
  rows : List CalendarRow
deriving DecidableEq

/-- The source's `weekday_mapping`: Python `datetime.weekday()` numbering,
0 = Monday .. 6 = Sunday. -/
def weekdayName (wd : Fin 7) : String :=
  match wd.val with
  | 0 => "monday"
  | 1 => "tuesday"
  | 2 => "wednesday"
  | 3 => "thursday"
  | 4 => "friday"
  | 5 => "saturday"
  | _ => "sunday"

/-- The weekday flag cell of a calendar row selected by the same mapping. -/
def CalendarRow.dayFlag (r : CalendarRow) (wd : Fin 7) : Value :=
  match wd.val with
  | 0 => r.monday
  | 1 => r.tuesday
  | 2 => r.wednesday
  | 3 => r.thursday
  | 4 => r.friday
  | 5 => r.saturday
  | _ => r.sunday

/-- `valid_services` (source lines 262-276): calendar rows whose inclusive
`[start_date, end_date]` window contains the target date, further filtered
by the target weekday's flag being `== 1` when that column exists. -/
def calendarValidRows (cal : CalendarTable) (d : Int) (wd : Fin 7) : List CalendarRow :=
  let valid := cal.rows.filter (fun r => decide (r.start_date ≤ d) && decide (d ≤ r.end_date))
  if weekdayName wd ∈ cal.cols then
    valid.filter (fun r => rawEq (r.dayFlag wd) (vInt 1))
  else valid

/-- `valid_services['service_id'].unique()` (source line 279). -/
def baseServiceIds (cal : CalendarTable) (d : Int) (wd : Fin 7) : List Value :=
  pdUnique ((calendarValidRows cal d wd).map (·.service_id))

/-- A row of `calendar_dates.txt`; `date` carries the `astype(int)`
coercion of source line 291. -/
structure CalDateRow where
  service_id : Value
  date : Int
  exception_type : Value
deriving DecidableEq

/-- The calendar_dates DataFrame with its column-name list (the source
checks for the `date` and `exception_type` columns). -/
structure CalDatesTable where
  cols : List String
  rows : List CalDateRow
deriving DecidableEq

/-- `date_exceptions` (source line 292): exception rows for the target date. -/
def dateExceptions (cd : CalDatesTable) (d : Int) : List CalDateRow :=
  cd.rows.filter (fun r => decide (r.date = d))

/-- `added_services` (source line 296): service ids with `exception_type == 1`
for the target date. -/
def addedServices (cd : CalDatesTable) (d : Int) : List Value :=
  pdUnique (((dateExceptions cd d).filter (fun r => rawEq r.exception_type (vInt 1))).map (·.service_id))

/-- `removed_services` (source line 297): service ids with `exception_type == 2`
for the target date. -/
def removedServices (cd : CalDatesTable) (d : Int) : List Value :=
  pdUnique (((dateExceptions cd d).filter (fun r => rawEq r.exception_type (vInt 2))).map (·.service_id))

/-- The service-resolution block of `get_route_details` (source lines
249-309).  `none` is the source's `service_ids = None` sentinel
("unconstrained"); `some` is a concrete (possibly empty) list of service
ids.  The set union `list(set(service_ids).union(set(added_services)))` has
unspecified element order in Python; it is modelled by an order-canonical
deduplicated append, faithful because every downstream use
(`isin`) is membership-only. -/
def activeServiceIds (calendar : Option CalendarTable) (calendar_dates : Option CalDatesTable)
    (d : Int) (wd : Fin 7) : Option (List Value) :=
  let fromCal : Option (List Value) :=
    match calendar with
    | none => none
    | some cal =>
      if calendarValidRows cal d wd = [] then none
      else some (baseServiceIds cal d wd)
  match calendar_dates with
  | none => fromCal
  | some cd =>
    if "date" ∈ cd.cols ∧ "exception_type" ∈ cd.cols then
      if dateExceptions cd d = [] then fromCal
      else
        match fromCal with
        | some sids =>
            some (pdUnique ((sids.filter (fun sid => !(valMem sid (removedServices cd d))))
              ++ addedServices cd d))
        | none => some (addedServices cd d)
    else fromCal

/-- The service-filtering step (source lines 312-321): the filter is applied
only when `service_ids is not None and len(service_ids) > 0`; `none` means
the filter was skipped. -/
def serviceFilterStep (service_ids : Option (List Value)) (route_trips : List TripRow) :
    Option (List TripRow) :=
  match service_ids with
  | some sids =>
    if 0 < sids.length then
      some (route_trips.filter (fun t => valMem t.service_id sids))
    else none
  | none => none

/-- A row of `stop_times.txt` (the columns the source consults). -/
structure StopTimeRow where
  trip_id : Value
  stop_id : Value
deriving DecidableEq

/-- A row of `stops.txt` (the columns the source consults). -/
structure StopRow where
  stop_id : Value
  stop_name : Value
  stop_lat : Value
  stop_lon : Value
deriving DecidableEq

/-- A row of `shapes.txt`; `shape_pt_sequence` is the numeric sort key. -/
structure ShapeRow where
  shape_id : Value
  shape_pt_sequence : Int
  shape_pt_lat : Value
  shape_pt_lon : Value
deriving DecidableEq

/-- An emitted `{lat, lng}` shape point.  The source converts the cells
with `float(...)`; the conversion is modelled as carrying the raw cell,
since no claim concerns float parsing. -/
structure ShapePoint where
  lat : Value
  lng : Value
deriving DecidableEq

/-- An emitted stop record `{id, name, lat, lng}` (source lines 366-372). -/
structure StopRec where
  id : String
  name : String
  lat : Value
  lng : Value
deriving DecidableEq

/-- A row of `routes.txt`: its `route_id` cell plus the full column-ordered
field list. -/
structure RouteRow where
  route_id : Value
  fields : List (String × Value)
deriving DecidableEq

/-- `str(v) if not pd.isna(v) else ""` (source lines 156, 380). -/
def strOrEmpty (v : Value) : String :=
  if v = vNull then "" else v.pyStr

/-- The loaded dataset seen by `get_route_details` after the file-existence
checks: the four required tables plus the three optional ones (`none`
models an absent file). -/
structure Dataset where
  routes : List RouteRow
  trips : TripsTable
  stop_times : List StopTimeRow
  stops : List StopRow
  calendar : Option CalendarTable
  calendar_dates : Option CalDatesTable
  shapes : Option (List ShapeRow)

/-- Result of `get_route_details`: the two distinct user-facing error
payloads (source lines 246 and 319) and the success payload
(source lines 382-386). -/
inductive RDResult where
  | noTripsForRoute
  | noTripsForDate
  | ok (route : List (String × String)) (shape : List ShapePoint) (stops : List StopRec)
deriving DecidableEq

/-- The comparison relation used to sort shape points
(`sort_values('shape_pt_sequence')`, source line 343). -/
def seqLe (a b : ShapeRow) : Prop :=
  a.shape_pt_sequence ≤ b.shape_pt_sequence

instance : DecidableRel seqLe := fun _ _ => Int.decLe _ _

instance : IsTotal ShapeRow seqLe := ⟨fun _ _ => Int.le_total _ _⟩

instance : IsTrans ShapeRow seqLe := ⟨fun _ _ _ h h' => Int.le_trans h h'⟩

/-- The shape-assembly block (source lines 328-354): requires the
`shape_id` column, a shapes file, and a first surviving trip; points with
`shape_id == first_shape_id` are sorted by `shape_pt_sequence` and emitted.
(pandas `sort_values` is a correct, not necessarily stable, sort; it is
modelled by insertion sort — any tie order, see the order-independence
theorem.) -/
def shapePointsOf (trips_cols : List String) (surviving : List TripRow)
    (shapes : Option (List ShapeRow)) : List ShapePoint :=
  if "shape_id" ∈ trips_cols then
    match shapes with
    | some shapes_df =>
      match surviving with
      | [] => []
      | t :: _ =>
        let shape_df := (shapes_df.filter (fun p => rawEq p.shape_id t.shape_id)).insertionSort seqLe
        shape_df.map (fun p => ShapePoint.mk p.shape_pt_lat p.shape_pt_lon)
    | none => []
  else []

/-- `trip_stops['stop_id'].unique()` (source lines 325, 359): the
deduplicated stop ids of the stop_times rows joined to the surviving trips
on `trip_id` (pandas `merge` matches keys structurally, NaN included). -/
def tripStopIds (surviving : List TripRow) (stop_times : List StopTimeRow) : List Value :=
  pdUnique ((surviving.flatMap
    (fun t => stop_times.filter (fun strow => decide (strow.trip_id = t.trip_id)))).map (·.stop_id))

/-- `route_stops` and `stops_list` (source lines 362-372): stops-table rows
whose `stop_id` is in the collected ids, in stops-table row order, each
emitted once. -/
def stopsListOf (stops : List StopRow) (stop_ids : List Value) : List StopRec :=
  (stops.filter (fun s => valMem s.stop_id stop_ids)).map
    (fun s => StopRec.mk s.stop_id.pyStr (strOrEmpty s.stop_name) s.stop_lat s.stop_lon)

/-- `route_info` (source lines 374-380): the first routes row whose
`route_id` cell raw-equals the target string, converted to a string field
map; empty when no row raw-matches. -/
def routeInfoOf (routes : List RouteRow) (route_id : String) : List (String × String) :=
  match routes.filter (fun r => rawEq r.route_id (vStr route_id)) with
  | [] => []
  | r :: _ => r.fields.map (fun p => (p.1, strOrEmpty p.2))

/-- The success payload (source lines 328-386) assembled from the surviving
trips. -/
def assembleResult (ds : Dataset) (route_id : String) (surviving : List TripRow) : RDResult :=
  RDResult.ok (routeInfoOf ds.routes route_id)
    (shapePointsOf ds.trips.cols surviving ds.shapes)
    (stopsListOf ds.stops (tripStopIds surviving ds.stop_times))

/-- The trips that reach the assembly stage: the route-filtered trips,
service-filtered when the filter applies. -/
def survivingTrips (ds : Dataset) (route_id : String) (d : Int) (wd : Fin 7) : List TripRow :=
  let route_trips := filterTripsByRoute ds.trips.rows route_id
  match serviceFilterStep (activeServiceIds ds.calendar ds.calendar_dates d wd) route_trips with
  | some filtered => filtered
  | none => route_trips

/-- `get_route_details` (source lines 168-389) from the point where the
four required tables are loaded.  `d` is the target date as the
`YYYYMMDD` integer and `wd` the Python weekday (0 = Monday), both derived
in the source from the request's datetime string. -/
def get_route_details (ds : Dataset) (route_id : String) (d : Int) (wd : Fin 7) : RDResult :=
  let route_trips := filterTripsByRoute ds.trips.rows route_id
  if route_trips = [] then RDResult.noTripsForRoute
  else
    match serviceFilterStep (activeServiceIds ds.calendar ds.calendar_dates d wd) route_trips with
    | some filtered =>
      if filtered = [] then RDResult.noTripsForDate
      else assembleResult ds route_id filtered
    | none => assembleResult ds route_id route_trips

/-! ### `get_routes` and its on-disk store -/

/-- A loaded CSV table as a column-name list plus string-keyed rows
(used for `routes.txt` and `agency.txt` in `get_routes`, where the columns
are open-ended). -/
structure TableRM where
  cols : List String
  rows : List (List (String × Value))
deriving DecidableEq

/-- Cell access `row[col]`; a column absent from a row reads as NaN. -/
def fieldOf (row : List (String × Value)) (c : String) : Value :=
  match row.lookup c with
  | some v => v
  | none => vNull

/-- The on-disk contents of one `{uuid}/{timestamp}` directory as seen by
`get_routes`: its optional `routes.txt` and `agency.txt`. -/
structure Folder where
  routes : Option TableRM
  agency : Option TableRM
deriving DecidableEq

/-- The storage root: the existing `(uuid, timestamp)` directories and
their contents.  Directory existence is membership. -/
abbrev Store := List (String × String × Folder)

/-- Directory lookup for `os.path.join(base_dir, uuid_dir, timestamp_dir)`. -/
def findFolder (store : Store) (u t : String) : Option Folder :=
  match store.find? (fun e => decide (e.1 = u) && decide (e.2.1 = t)) with
  | some e => some e.2.2
  | none => none

/-- The agency left-merge of `get_routes` (source line 145):
`pd.merge(routes_df, agency_df, on='agency_id', how='left')`.  The agency
columns other than `agency_id` are appended, filled from the first agency
row with a structurally equal `agency_id` (the GTFS key), NaN when there is
no match. -/
def mergeLeftOnAgency (routes agency : TableRM) : TableRM :=
  let extraCols := agency.cols.filter (fun c => !(decide (c = "agency_id")))
  { cols := routes.cols ++ extraCols
    rows := routes.rows.map (fun r =>
      match agency.rows.find? (fun a => decide (fieldOf a "agency_id" = fieldOf r "agency_id")) with
      | some a => r ++ extraCols.map (fun c => (c, fieldOf a c))
      | none => r ++ extraCols.map (fun c => (c, vNull))) }

/-- `get_routes` (source lines 105-166).  Every failure branch — malformed
`folder_id` (not exactly two separator-split parts, source line 120),
absent directory (line 127), missing `routes.txt` (line 132), and the
catch-all handler (line 166) — returns the plain empty list; the success
branch returns the (optionally agency-merged, `fillna('')`-converted) rows
as string field maps. -/
def get_routes (store : Store) (folder_id : String) : List (List (String × String)) :=
  match pySplitSlash folder_id with
  | [uuid_dir, timestamp_dir] =>
    match findFolder store uuid_dir timestamp_dir with
    | none => []
    | some folder =>
      match folder.routes with
      | none => []
      | some routes_tbl =>
        let merged :=
          match folder.agency with
          | none => routes_tbl
          | some agency_tbl =>
            if "agency_id" ∈ routes_tbl.cols ∧ "agency_id" ∈ agency_tbl.cols then
              mergeLeftOnAgency routes_tbl agency_tbl
            else routes_tbl
        merged.rows.map (fun row => merged.cols.map (fun c => (c, strOrEmpty (fieldOf row c))))
  | _ => []

/-! ### `upload_gtfs` and the filesystem it mutates -/

/-- A filesystem path as its component list, e.g.
`[base_dir, uuid, timestamp, "routes.txt"]`. -/
abbrev FPath := List String

/-- The mutable filesystem state: the set of existing files. -/
structure FS where
  files : List FPath
deriving DecidableEq

/-- `required_files` of `_is_valid_gtfs` (source line 71). -/
def requiredFiles : List String :=
  ["routes.txt", "stops.txt", "trips.txt", "stop_times.txt"]

/-- `_is_valid_gtfs` (source lines 62-84): true iff every required file
exists inside the folder. -/
def isValidGtfs (fs : FS) (folder : FPath) : Bool :=
  requiredFiles.all (fun f => decide ((folder ++ [f]) ∈ fs.files))

/-- Outcome of `upload_gtfs`: the returned folder id, or the propagated
`ValueError` message. -/
inductive UploadResult where
  | ok (folder_id : String)
  | error (msg : String)
deriving DecidableEq

/-- `upload_gtfs` (source lines 397-448) for an archive whose extraction
succeeds, as a state transformer: saves the zip, extracts each archive
member into the `{base}/{uuid}/{timestamp}` directory, removes the zip,
then validates; on invalid data the `ValueError` propagates
(`UploadResult.error` with the source's message) with no cleanup of the
extracted directory. -/
def upload_gtfs (fs0 : FS) (base folder_uuid timestamp : String) (archive : List String) :
    FS × UploadResult :=
  let extract_dir : FPath := [base, folder_uuid, timestamp]
  let zip_path : FPath := [base, folder_uuid, "gtfs.zip"]
  let fs1 : FS := ⟨fs0.files ++ [zip_path]⟩
  let fs2 : FS := ⟨fs1.files ++ archive.map (fun name => extract_dir ++ [name])⟩
  let fs3 : FS := ⟨fs2.files.filter (fun p => !(decide (p = zip_path)))⟩
  if isValidGtfs fs3 extract_dir then
    (fs3, UploadResult.ok (folder_uuid ++ "/" ++ timestamp))
  else
    (fs3, UploadResult.error "Uploaded file does not contain valid GTFS data")

/-! ### Concrete instances used by counterexamples and witnesses -/

/-- One calendar row: service `S1`, window 2024-01-01 .. 2024-01-31, all
weekday flags set. -/
def exCalRow : CalendarRow :=
  ⟨vStr "S1", 20240101, 20240131, vInt 1, vInt 1, vInt 1, vInt 1, vInt 1, vInt 1, vInt 1⟩

/-- A calendar table whose single entry does not cover 2024-06-15. -/
def exCal : CalendarTable :=
  ⟨["service_id", "monday", "tuesday", "wednesday", "thursday", "friday",
    "saturday", "sunday", "start_date", "end_date"], [exCalRow]⟩

/-- A trips table with a single trip of route `R1` and service `S2`. -/
def exTripsR1 : TripsTable :=
  ⟨["route_id", "service_id", "trip_id"],
   [⟨vStr "T1", vStr "R1", vStr "S2", vNull⟩]⟩

/-- Dataset for claim 1: calendar present but yielding no valid service for
the target date, no calendar_dates. -/
def dsCalEmpty : Dataset :=
  ⟨[], exTripsR1, [], [], some exCal, none, none⟩

/-- Dataset for claim 2: `route_id` stored as the integer 42 in both the
routes and the trips tables. -/
def dsIntRoute : Dataset :=
  ⟨[⟨vInt 42, [("route_id", vInt 42), ("route_short_name", vStr "X")]⟩],
   ⟨["route_id", "service_id", "trip_id"], [⟨vStr "T1", vInt 42, vStr "S1", vNull⟩]⟩,
   [], [], none, none, none⟩

/-- Dataset for the claim 2 witness: a string `route_id` that raw-matches. -/
def dsStrRoute : Dataset :=
  ⟨[⟨vStr "7", [("route_id", vStr "7"), ("route_long_name", vNull)]⟩,
    ⟨vStr "7", [("route_id", vStr "7"), ("route_long_name", vStr "second")]⟩],
   ⟨["route_id", "service_id", "trip_id"], [⟨vStr "T1", vStr "7", vStr "S1", vNull⟩]⟩,
   [⟨vStr "T1", vStr "A"⟩],
   [⟨vStr "A", vStr "Alpha", vInt 1, vInt 2⟩],
   none, none, none⟩

/-- Store for claim 3: directory `u/t` without a routes table, directory
`u2/t2` with an empty routes table. -/
def exStore : Store :=
  [("u", "t", ⟨none, none⟩),
   ("u2", "t2", ⟨some ⟨["route_id"], []⟩, none⟩)]

/-- calendar_dates for claim 4: for 2024-06-01 a single Removed exception
and no Added ones. -/
def exCdRemovedOnly : CalDatesTable :=
  ⟨["service_id", "date", "exception_type"], [⟨vStr "S9", 20240601, vInt 2⟩]⟩

/-- Dataset for claim 4: no calendar, only the Removed-only exceptions. -/
def dsRemovedOnly : Dataset :=
  ⟨[], ⟨["route_id", "service_id", "trip_id"], [⟨vStr "T1", vStr "R1", vStr "S1", vNull⟩]⟩,
   [], [], none, some exCdRemovedOnly, none⟩

/-- calendar_dates for the claim 4 witness: one Added exception. -/
def exCdAdded : CalDatesTable :=
  ⟨["service_id", "date", "exception_type"], [⟨vStr "S7", 20240601, vInt 1⟩]⟩

/-- Calendar for claim 5: services `S1`, `S2` valid through 2024, all
weekday flags set. -/
def exCalC5 : CalendarTable :=
  ⟨["service_id", "monday", "tuesday", "wednesday", "thursday", "friday",
    "saturday", "sunday", "start_date", "end_date"],
   [⟨vStr "S1", 20240101, 20241231, vInt 1, vInt 1, vInt 1, vInt 1, vInt 1, vInt 1, vInt 1⟩,
    ⟨vStr "S2", 20240101, 20241231, vInt 1, vInt 1, vInt 1, vInt 1, vInt 1, vInt 1, vInt 1⟩]⟩

/-- calendar_dates for claim 5: for 2024-06-01, `S2` Removed, `S3` both
Added and Removed. -/
def exCdC5 : CalDatesTable :=
  ⟨["service_id", "date", "exception_type"],
   [⟨vStr "S2", 20240601, vInt 2⟩,
    ⟨vStr "S3", 20240601, vInt 1⟩,
    ⟨vStr "S3", 20240601, vInt 2⟩]⟩

/-- Dataset for the claim 7 witness: one trip of route `RY`. -/
def dsOtherRoute : Dataset :=
  ⟨[], ⟨["route_id", "service_id", "trip_id"], [⟨vStr "T1", vStr "RY", vStr "S1", vNull⟩]⟩,
   [], [], none, none, none⟩

/-- Shapes table for claim 8, deliberately out of sequence order and with a
foreign shape id interleaved. -/
def exShapes : List ShapeRow :=
  [⟨vStr "SH1", 2, vInt 2, vInt 20⟩,
   ⟨vStr "SH2", 1, vInt 9, vInt 9⟩,
   ⟨vStr "SH1", 1, vInt 1, vInt 10⟩]

/-- Dataset for claim 8: single trip with shape `SH1`, scrambled shapes. -/
def dsShapes : Dataset :=
  ⟨[], ⟨["route_id", "service_id", "trip_id", "shape_id"],
    [⟨vStr "T1", vStr "1", vStr "S1", vStr "SH1"⟩]⟩,
   [], [], none, none, some exShapes⟩

/-- Dataset for claim 10: two trips of route `R1` sharing stop `A`. -/
def dsSharedStop : Dataset :=
  ⟨[], ⟨["route_id", "service_id", "trip_id"],
    [⟨vStr "T1", vStr "R1", vStr "S1", vNull⟩, ⟨vStr "T2", vStr "R1", vStr "S1", vNull⟩]⟩,
   [⟨vStr "T1", vStr "A"⟩, ⟨vStr "T2", vStr "A"⟩, ⟨vStr "T1", vStr "B"⟩],
   [⟨vStr "A", vStr "Alpha", vInt 1, vInt 2⟩, ⟨vStr "B", vNull, vInt 3, vInt 4⟩],
   none, none, none⟩

/-! ### Helper lemmas -/

theorem valMem_iff {x : Value} {l : List Value} : valMem x l = true ↔ x ∈ l := by
  simp only [valMem, List.any_eq_true, decide_eq_true_eq]
  constructor
  · rintro ⟨y, hy, rfl⟩; exact hy
  · intro h; exact ⟨x, h, rfl⟩

theorem mem_pdUniqueAux {x : Value} :
    ∀ (l seen : List Value), x ∈ pdUniqueAux seen l ↔ x ∈ l ∧ x ∉ seen := by
  intro l
  induction l with
  | nil => intro seen; simp [pdUniqueAux]
  | cons y ys ih =>
    intro seen
    cases hvy : valMem y seen with
    | true =>
      have hyseen : y ∈ seen := valMem_iff.mp hvy
      simp only [pdUniqueAux, hvy, if_true, ih, List.mem_cons]
      constructor
      · rintro ⟨h1, h2⟩; exact ⟨Or.inr h1, h2⟩
      · rintro ⟨h1 | h1, h2⟩
        · exact absurd (h1 ▸ hyseen) h2
        · exact ⟨h1, h2⟩
    | false =>
      have hyseen : y ∉ seen := fun hmem => by simp [valMem_iff.mpr hmem] at hvy
      simp only [pdUniqueAux, hvy, Bool.false_eq_true, if_false, List.mem_cons, ih]
      by_cases hxy : x = y
      · subst hxy; tauto
      · tauto

theorem mem_pdUnique {x : Value} {l : List Value} : x ∈ pdUnique l ↔ x ∈ l := by
  simpa using mem_pdUniqueAux l []

/-- The filter-then-head lookup of `route_info` equals a first-match
search. -/
theorem routeInfoOf_eq_find (routes : List RouteRow) (rid : String) :
    routeInfoOf routes rid =
      match routes.find? (fun row => rawEq row.route_id (vStr rid)) with
      | some row => row.fields.map (fun p => (p.1, strOrEmpty p.2))
      | none => [] := by
  induction routes with
  | nil => rfl
  | cons r rs ih =>
    by_cases h : rawEq r.route_id (vStr rid) = true
    · simp [routeInfoOf, List.filter_cons, h, List.find?_cons_of_pos]
    · have h' : rawEq r.route_id (vStr rid) = false := by
        cases hb : rawEq r.route_id (vStr rid)
        · rfl
        · exact absurd hb h
      simp only [routeInfoOf, List.filter_cons, h', Bool.false_eq_true, if_false,
        List.find?_cons]
      exact ih

/-- Two lists that are permutations of each other, agree under a map, and
have no duplicate map images, are equal. -/
theorem eq_of_perm_of_map_eq {α β : Type} (f : α → β) :
    ∀ (l1 l2 : List α), l1.Perm l2 → l1.map f = l2.map f → (l1.map f).Nodup → l1 = l2 := by
  intro l1
  induction l1 with
  | nil =>
    intro l2 hp _ _
    exact (hp.symm.eq_nil).symm
  | cons a t1 ih =>
    intro l2 hp hmap hnd
    cases l2 with
    | nil => simp at hmap
    | cons b t2 =>
      simp only [List.map_cons, List.cons.injEq] at hmap
      obtain ⟨hab, ht⟩ := hmap
      have hnd' := List.nodup_cons.mp hnd
      have hmem : a ∈ b :: t2 := hp.mem_iff.mp (List.mem_cons_self a t1)
      rcases List.mem_cons.mp hmem with rfl | hmem'
      · rw [ih t2 hp.cons_inv ht hnd'.2]
      · exfalso
        have : f a ∈ t2.map f := List.mem_map_of_mem f hmem'
        rw [← ht] at this
        exact hnd'.1 this

/-- Sorting by `shape_pt_sequence` does not depend on the input order of
the rows, provided the sequence numbers are distinct. -/
theorem insertionSort_eq_of_perm (l1 l2 : List ShapeRow) (hp : l1.Perm l2)
    (hnd : (l1.map (·.shape_pt_sequence)).Nodup) :
    l1.insertionSort seqLe = l2.insertionSort seqLe := by
  have hp1 : (l1.insertionSort seqLe).Perm l1 := List.perm_insertionSort seqLe l1
  have hp2 : (l2.insertionSort seqLe).Perm l2 := List.perm_insertionSort seqLe l2
  have hps : (l1.insertionSort seqLe).Perm (l2.insertionSort seqLe) :=
    hp1.trans (hp.trans hp2.symm)
  have hs1 : (l1.insertionSort seqLe).Sorted seqLe := List.sorted_insertionSort seqLe l1
  have hs2 : (l2.insertionSort seqLe).Sorted seqLe := List.sorted_insertionSort seqLe l2
  have hm1 : ((l1.insertionSort seqLe).map (·.shape_pt_sequence)).Sorted (· ≤ ·) :=
    List.Pairwise.map _ (fun _ _ h => h) hs1
  have hm2 : ((l2.insertionSort seqLe).map (·.shape_pt_sequence)).Sorted (· ≤ ·) :=
    List.Pairwise.map _ (fun _ _ h => h) hs2
  haveI : IsAntisymm Int (· ≤ ·) := ⟨fun _ _ h h' => Int.le_antisymm h h'⟩
  have hmeq : (l1.insertionSort seqLe).map (·.shape_pt_sequence)
      = (l2.insertionSort seqLe).map (·.shape_pt_sequence) :=
    List.eq_of_perm_of_sorted (hps.map _) hm1 hm2
  have hnd1 : ((l1.insertionSort seqLe).map (·.shape_pt_sequence)).Nodup :=
    ((hp1.map _).nodup_iff).mpr hnd
  exact eq_of_perm_of_map_eq _ _ _ hps hmeq hnd1

/-- Dropping the shapes table empties the shape field and changes nothing
else about the result: the error/success status, the route map and the
stop list are unaffected. -/
theorem get_route_details_shapes_none (ds : Dataset) (rid : String) (d : Int) (wd : Fin 7) :
    get_route_details { ds with shapes := none } rid d wd =
      match get_route_details ds rid d wd with
      | RDResult.ok r _ st => RDResult.ok r [] st
      | e => e := by
  have hsp : ∀ (cols : List String) (sv : List TripRow), shapePointsOf cols sv none = [] := by
    intro cols sv
    unfold shapePointsOf
    split <;> rfl
  unfold get_route_details
  by_cases hrt : filterTripsByRoute ds.trips.rows rid = []
  · simp [hrt]
  · simp only [hrt, if_false]
    cases hsf : serviceFilterStep (activeServiceIds ds.calendar ds.calendar_dates d wd)
        (filterTripsByRoute ds.trips.rows rid) with
    | none => simp [assembleResult, hsp]
    | some filtered =>
      by_cases hf : filtered = []
      · simp [hf]
      · simp [hf, assembleResult, hsp]

/-- When service resolution yields the unconstrained sentinel, the result
coincides with the result on the same dataset stripped of both calendar
tables. -/
theorem get_route_details_unconstrained (ds : Dataset) (rid : String) (d : Int) (wd : Fin 7)
    (h : activeServiceIds ds.calendar ds.calendar_dates d wd = none) :
    get_route_details ds rid d wd =
      get_route_details { ds with calendar := none, calendar_dates := none } rid d wd := by
  unfold get_route_details
  rw [h]
  rfl

/-- Every `ok` result of `get_route_details` is the assembly of the
surviving trips, which are nonempty. -/
theorem get_route_details_ok_parts (ds : Dataset) (rid : String) (d : Int) (wd : Fin 7)
    (r : List (String × String)) (sh : List ShapePoint) (st : List StopRec)
    (h : get_route_details ds rid d wd = RDResult.ok r sh st) :
    r = routeInfoOf ds.routes rid ∧
    sh = shapePointsOf ds.trips.cols (survivingTrips ds rid d wd) ds.shapes ∧
    st = stopsListOf ds.stops (tripStopIds (survivingTrips ds rid d wd) ds.stop_times) ∧
    survivingTrips ds rid d wd ≠ [] ∧
    filterTripsByRoute ds.trips.rows rid ≠ [] := by
  unfold get_route_details at h
  by_cases hrt : filterTripsByRoute ds.trips.rows rid = []
  · simp [hrt] at h
  · simp only [hrt, if_false] at h
    cases hsf : serviceFilterStep (activeServiceIds ds.calendar ds.calendar_dates d wd)
        (filterTripsByRoute ds.trips.rows rid) with
    | none =>
      rw [hsf] at h
      unfold assembleResult at h
      injection h with h1 h2 h3
      refine ⟨h1.symm, ?_, ?_, ?_, hrt⟩ <;> simp only [survivingTrips, hsf]
      · exact h2.symm
      · exact h3.symm
      · exact hrt
    | some filtered =>
      rw [hsf] at h
      by_cases hf : filtered = []
      · simp [hf] at h
      · simp only [hf, if_false] at h
        unfold assembleResult at h
        injection h with h1 h2 h3
        refine ⟨h1.symm, ?_, ?_, ?_, hrt⟩ <;> simp only [survivingTrips, hsf]
        · exact h2.symm
        · exact h3.symm
        · exact hf

/-! ### Claim C1 -/

/-- Claim C1 counterexample: with a calendar table present whose only entry
does not cover 2024-06-15, the resolved active-service value is the
`none` sentinel (Unconstrained), not the concrete empty set, and
`get_route_details` then skips service filtering entirely: the trip with
the unknown service id `S2` is kept and the call succeeds, where the claim
predicts filtering with the empty set and hence zero kept trips. -/
theorem claim1_counterexample :
    activeServiceIds (some exCal) none 20240615 5 = none ∧
    activeServiceIds (some exCal) none 20240615 5 ≠ some [] ∧
    get_route_details dsCalEmpty "R1" 20240615 5 = RDResult.ok [] [] [] :=
  ⟨by decide, by decide, by decide⟩

/-- Claim C1 (amended): when the calendar table is present but yields no
entry containing the target date with the weekday flag set, and there is no
calendar-exceptions table, the resolved active-service value is the
Unconstrained sentinel (`none`), not a concrete empty set, and
`get_route_details` skips service filtering — its result coincides with the
result on the dataset with no calendar information at all. -/
theorem claim1_amended (ds : Dataset) (cal : CalendarTable) (rid : String) (d : Int) (wd : Fin 7)
    (hcal : ds.calendar = some cal)
    (hcd : ds.calendar_dates = none)
    (hempty : calendarValidRows cal d wd = []) :
    activeServiceIds ds.calendar ds.calendar_dates d wd = none ∧
    get_route_details ds rid d wd =
      get_route_details { ds with calendar := none, calendar_dates := none } rid d wd := by
  have h1 : activeServiceIds ds.calendar ds.calendar_dates d wd = none := by
    rw [hcal, hcd]
    simp [activeServiceIds, hempty]
  exact ⟨h1, get_route_details_unconstrained ds rid d wd h1⟩

/-- Witness for the amended claim 1 at the concrete dataset. -/
theorem claim1_witness :
    activeServiceIds dsCalEmpty.calendar dsCalEmpty.calendar_dates 20240615 5 = none ∧
    get_route_details dsCalEmpty "R1" 20240615 5 =
      get_route_details { dsCalEmpty with calendar := none, calendar_dates := none }
        "R1" 20240615 5 :=
  claim1_amended dsCalEmpty exCal "R1" 20240615 5 rfl rfl (by decide)

/-! ### Claim C2 -/

/-- Claim C2 counterexample: with `route_id` stored as the integer 42 in
the routes table, the query string "42" tri-matches the trips (the call
succeeds), yet the returned route field map is empty — the route lookup
uses only raw equality, not the tri-comparison rule. -/
theorem claim2_counterexample :
    tripMatchesRoute "42" (vInt 42) = true ∧
    dsIntRoute.routes.map (·.route_id) = [vInt 42] ∧
    routeInfoOf dsIntRoute.routes "42" = [] ∧
    get_route_details dsIntRoute "42" 20240101 0 = RDResult.ok [] [] [] :=
  ⟨by decide, by decide, by decide, by decide⟩

/-- Claim C2 (amended): the route field map of every successful
`get_route_details` result comes from the first routes row whose `route_id`
raw-equals the target string (pandas `==`, not the tri-comparison rule used
for trips), and is the empty map when no row raw-matches. -/
theorem claim2_amended (ds : Dataset) (rid : String) (d : Int) (wd : Fin 7)
    (r : List (String × String)) (sh : List ShapePoint) (st : List StopRec)
    (h : get_route_details ds rid d wd = RDResult.ok r sh st) :
    r = match ds.routes.find? (fun row => rawEq row.route_id (vStr rid)) with
        | some row => row.fields.map (fun p => (p.1, strOrEmpty p.2))
        | none => [] := by
  have hr := (get_route_details_ok_parts ds rid d wd r sh st h).1
  rw [hr, routeInfoOf_eq_find]

/-- Witness for the amended claim 2: the first raw-matching routes row of
`dsStrRoute` (not the second) supplies the field map, with NaN rendered as
the empty string. -/
theorem claim2_witness :
    [("route_id", "7"), ("route_long_name", "")] =
      match dsStrRoute.routes.find? (fun row => rawEq row.route_id (vStr "7")) with
      | some row => row.fields.map (fun p => (p.1, strOrEmpty p.2))
      | none => [] :=
  claim2_amended dsStrRoute "7" 20240101 0
    [("route_id", "7"), ("route_long_name", "")] []
    [⟨"A", "Alpha", vInt 1, vInt 2⟩] (by decide)

/-! ### Claim C3 -/

/-- Claim C3 counterexample: `get_routes` returns the plain empty list — a
value indistinguishable from a successful query on a dataset with zero
routes (`u2/t2`) — for a malformed one-part id, a malformed three-part id,
an absent directory, and a dataset missing the routes table; no typed error
is signalled. -/
theorem claim3_counterexample :
    get_routes exStore "u" = [] ∧
    get_routes exStore "a/b/c" = [] ∧
    get_routes exStore "x/y" = [] ∧
    get_routes exStore "u/t" = [] ∧
    get_routes exStore "u2/t2" = [] :=
  ⟨by decide, by decide, by decide, by decide, by decide⟩

/-- Claim C3 (amended): `get_routes` silently tolerates every failure mode
— malformed dataset id (not exactly two separator-split parts), absent
directory, and missing routes table — returning the empty list, the same
shape as a successful result, rather than a typed error (only
`get_route_details` signals such failures with error payloads). -/
theorem claim3_amended (store : Store) (id u t : String) (f : Folder) :
    ((pySplitSlash id).length ≠ 2 → get_routes store id = []) ∧
    (pySplitSlash id = [u, t] → findFolder store u t = none → get_routes store id = []) ∧
    (pySplitSlash id = [u, t] → findFolder store u t = some f → f.routes = none →
      get_routes store id = []) := by
  refine ⟨?_, ?_, ?_⟩
  · intro hlen
    cases hsplit : pySplitSlash id with
    | nil => simp [get_routes, hsplit]
    | cons a rest =>
      cases rest with
      | nil => simp [get_routes, hsplit]
      | cons b rest2 =>
        cases rest2 with
        | nil =>
          exact absurd (by rw [hsplit]; rfl : (pySplitSlash id).length = 2) hlen
        | cons c rest3 => simp [get_routes, hsplit]
  · intro hsplit hnone
    simp [get_routes, hsplit, hnone]
  · intro hsplit hsome hroutes
    simp [get_routes, hsplit, hsome, hroutes]

/-- Witness for the amended claim 3 at concrete failing inputs. -/
theorem claim3_witness :
    get_routes exStore "u" = [] ∧
    get_routes exStore "x/y" = [] ∧
    get_routes exStore "u/t" = [] :=
  ⟨(claim3_amended exStore "u" "" "" ⟨none, none⟩).1 (by decide),
   (claim3_amended exStore "x/y" "x" "y" ⟨none, none⟩).2.1 (by decide) (by decide),
   (claim3_amended exStore "u/t" "u" "t" ⟨none, none⟩).2.2 (by decide) (by decide) (by decide)⟩

/-! ### Claim C4 -/

/-- Claim C4 counterexample: with no calendar table and a calendar-dates
table containing one (Removed-only) exception matching the target date, the
resolved set is the concrete empty set, yet trips are NOT filtered to it:
the guard `len(service_ids) > 0` skips filtering and the call succeeds with
the trip kept, where the claim predicts filtering with the empty Added set. -/
theorem claim4_counterexample :
    dateExceptions exCdRemovedOnly 20240601 ≠ [] ∧
    addedServices exCdRemovedOnly 20240601 = [] ∧
    activeServiceIds none (some exCdRemovedOnly) 20240601 5 = some [] ∧
    get_route_details dsRemovedOnly "R1" 20240601 5 = RDResult.ok [] [] [] :=
  ⟨by decide, by decide, by decide, by decide⟩

/-- Claim C4 (amended): with no calendar table, exception rows matching the
target date make the active set concretely the Added set, and no matching
row leaves it Unconstrained; however the service filter is applied only
when the set is nonempty — a concretely empty set (e.g. only Removed
exceptions) skips filtering instead of keeping zero trips, while a nonempty
set filters trips to members of that set. -/
theorem claim4_amended (cd : CalDatesTable) (d : Int) (wd : Fin 7)
    (rt : List TripRow) (sids : List Value)
    (hc1 : "date" ∈ cd.cols) (hc2 : "exception_type" ∈ cd.cols) :
    (dateExceptions cd d = [] → activeServiceIds none (some cd) d wd = none) ∧
    (dateExceptions cd d ≠ [] →
      activeServiceIds none (some cd) d wd = some (addedServices cd d)) ∧
    serviceFilterStep (some []) rt = none ∧
    (sids ≠ [] → serviceFilterStep (some sids) rt
        = some (rt.filter (fun tr => valMem tr.service_id sids))) := by
  refine ⟨?_, ?_, rfl, ?_⟩
  · intro h; simp [activeServiceIds, hc1, hc2, h]
  · intro h; simp [activeServiceIds, hc1, hc2, h]
  · intro h
    simp [serviceFilterStep, List.length_pos.mpr h]

/-- Witness for the amended claim 4: an Added-only exception yields the
concrete Added set, the empty set skips the filter, and a nonempty set
filters by membership. -/
theorem claim4_witness :
    activeServiceIds none (some exCdAdded) 20240601 5 = some (addedServices exCdAdded 20240601) ∧
    serviceFilterStep (some []) exTripsR1.rows = none ∧
    serviceFilterStep (some [vStr "S2"]) exTripsR1.rows
      = some (exTripsR1.rows.filter (fun tr => valMem tr.service_id [vStr "S2"])) :=
  ⟨(claim4_amended exCdAdded 20240601 5 [] [] (by decide) (by decide)).2.1 (by decide),
   (claim4_amended exCdAdded 20240601 5 exTripsR1.rows [] (by decide) (by decide)).2.2.1,
   (claim4_amended exCdAdded 20240601 5 exTripsR1.rows [vStr "S2"] (by decide) (by decide)).2.2.2
     (by decide)⟩

/-! ### Claim C5 -/

theorem valMem_eq_false_iff {x : Value} {l : List Value} : valMem x l = false ↔ x ∉ l := by
  constructor
  · intro h hm
    rw [valMem_iff.mpr hm] at h
    exact Bool.noConfusion h
  · intro h
    cases hb : valMem x l
    · rfl
    · exact absurd (valMem_iff.mp hb) h

/-- Claim C5 (confirmed): with a nonempty concrete base set B from the
calendar and exception sets A (Added) and R (Removed) for the exact target
date, the resolved active-service set is concrete and its membership is
exactly (B − R) ∪ A; in particular a service id in both A and R ends up
active (the removal happens before the union with A). -/
theorem claim5 (cal : CalendarTable) (cd : CalDatesTable) (d : Int) (wd : Fin 7)
    (hbase : calendarValidRows cal d wd ≠ [])
    (hc1 : "date" ∈ cd.cols) (hc2 : "exception_type" ∈ cd.cols) :
    activeServiceIds (some cal) (some cd) d wd ≠ none ∧
    (∀ sid, sid ∈ (activeServiceIds (some cal) (some cd) d wd).getD [] ↔
      ((sid ∈ baseServiceIds cal d wd ∧ sid ∉ removedServices cd d) ∨
        sid ∈ addedServices cd d)) ∧
    (∀ sid, sid ∈ addedServices cd d →
      sid ∈ (activeServiceIds (some cal) (some cd) d wd).getD []) := by
  have hfc : activeServiceIds (some cal) (some cd) d wd =
      if dateExceptions cd d = [] then some (baseServiceIds cal d wd)
      else some (pdUnique (((baseServiceIds cal d wd).filter
          (fun sid => !(valMem sid (removedServices cd d)))) ++ addedServices cd d)) := by
    simp [activeServiceIds, hbase, hc1, hc2]
  by_cases hexc : dateExceptions cd d = []
  · rw [hfc, if_pos hexc]
    have hadd : addedServices cd d = [] := by simp [addedServices, hexc, pdUnique, pdUniqueAux]
    have hrem : removedServices cd d = [] := by simp [removedServices, hexc, pdUnique, pdUniqueAux]
    refine ⟨by simp, ?_, ?_⟩
    · intro sid
      simp [hadd, hrem]
    · intro sid hs
      rw [hadd] at hs
      exact absurd hs (List.not_mem_nil sid)
  · rw [hfc, if_neg hexc]
    have hmem : ∀ sid, sid ∈ pdUnique (((baseServiceIds cal d wd).filter
        (fun sid => !(valMem sid (removedServices cd d)))) ++ addedServices cd d) ↔
        ((sid ∈ baseServiceIds cal d wd ∧ sid ∉ removedServices cd d) ∨
          sid ∈ addedServices cd d) := by
      intro sid
      rw [mem_pdUnique, List.mem_append, List.mem_filter]
      simp only [Bool.not_eq_eq_eq_not, Bool.not_true, valMem_eq_false_iff]
    refine ⟨by simp, fun sid => by simpa using hmem sid, fun sid hs => by
      simpa using (hmem sid).mpr (Or.inr hs)⟩

/-- Witness for claim 5: base {S1, S2}, Removed {S2, S3}, Added {S3} at
2024-06-01 — S1 stays, S2 is removed, S3 (both Added and Removed) is
active. -/
theorem claim5_witness :
    vStr "S1" ∈ (activeServiceIds (some exCalC5) (some exCdC5) 20240601 5).getD [] ∧
    vStr "S2" ∉ (activeServiceIds (some exCalC5) (some exCdC5) 20240601 5).getD [] ∧
    vStr "S3" ∈ (activeServiceIds (some exCalC5) (some exCdC5) 20240601 5).getD [] :=
  ⟨((claim5 exCalC5 exCdC5 20240601 5 (by decide) (by decide) (by decide)).2.1
      (vStr "S1")).mpr (Or.inl ⟨by decide, by decide⟩),
   fun hm => by
     have := ((claim5 exCalC5 exCdC5 20240601 5 (by decide) (by decide) (by decide)).2.1
       (vStr "S2")).mp hm
     revert this
     decide,
   (claim5 exCalC5 exCdC5 20240601 5 (by decide) (by decide) (by decide)).2.2
     (vStr "S3") (by decide)⟩

/-! ### Claim C6 -/

/-- Claim C6 (confirmed): trip-to-route matching is the union of the three
comparisons — raw equality, integer equality when the target parses, string
coercion — so a `route_id` stored as the string "42" and one stored as the
integer 42 both match the query string "42". -/
theorem claim6 (trips : List TripRow) (rid : String) (t : TripRow) (n : Int) :
    (t ∈ filterTripsByRoute trips rid ↔
      t ∈ trips ∧ (rawEq t.route_id (vStr rid) = true ∨
        (∃ m, parseInt? rid = some m ∧ rawEq t.route_id (vInt m) = true) ∨
        t.route_id.pyStr = rid)) ∧
    tripMatchesRoute rid (vStr rid) = true ∧
    (parseInt? rid = some n → tripMatchesRoute rid (vInt n) = true) := by
  refine ⟨?_, ?_, ?_⟩
  · rw [filterTripsByRoute, List.mem_filter]
    have hiff : ∀ v, tripMatchesRoute rid v = true ↔
        (rawEq v (vStr rid) = true ∨
          (∃ m, parseInt? rid = some m ∧ rawEq v (vInt m) = true) ∨ v.pyStr = rid) := by
      intro v
      unfold tripMatchesRoute
      cases hp : parseInt? rid with
      | none => simp
      | some m => simp [or_assoc]
    rw [hiff]
  · unfold tripMatchesRoute
    cases hp : parseInt? rid <;> simp [rawEq]
  · intro h
    unfold tripMatchesRoute
    rw [h]
    simp [rawEq]

/-- Witness for claim 6: both representations of 42 match the query "42". -/
theorem claim6_witness :
    tripMatchesRoute "42" (vStr "42") = true ∧ tripMatchesRoute "42" (vInt 42) = true :=
  ⟨(claim6 [] "42" ⟨vNull, vNull, vNull, vNull⟩ 42).2.1,
   (claim6 [] "42" ⟨vNull, vNull, vNull, vNull⟩ 42).2.2 (by decide)⟩

/-! ### Claim C7 -/

/-- Claim C7 (confirmed): `get_route_details` returns `noTripsForRoute`
exactly when no trip matches the route id, returns the distinct
`noTripsForDate` exactly when trips matched but the applied service filter
left none, and every other outcome is a success payload built from a
nonempty surviving-trip list (never a crash, never an empty success that
shadows the error conditions). -/
theorem claim7 (ds : Dataset) (rid : String) (d : Int) (wd : Fin 7) :
    (get_route_details ds rid d wd = RDResult.noTripsForRoute ↔
      filterTripsByRoute ds.trips.rows rid = []) ∧
    (get_route_details ds rid d wd = RDResult.noTripsForDate ↔
      (filterTripsByRoute ds.trips.rows rid ≠ [] ∧
       serviceFilterStep (activeServiceIds ds.calendar ds.calendar_dates d wd)
         (filterTripsByRoute ds.trips.rows rid) = some [])) ∧
    (∀ r sh st, get_route_details ds rid d wd = RDResult.ok r sh st →
      filterTripsByRoute ds.trips.rows rid ≠ [] ∧ survivingTrips ds rid d wd ≠ []) := by
  by_cases hrt : filterTripsByRoute ds.trips.rows rid = []
  · unfold get_route_details
    simp [hrt]
  · unfold get_route_details
    cases hsf : serviceFilterStep (activeServiceIds ds.calendar ds.calendar_dates d wd)
        (filterTripsByRoute ds.trips.rows rid) with
    | none =>
      simp only [hrt, if_false]
      refine ⟨by simp [hsf, assembleResult, hrt], by simp [hsf, assembleResult, hrt], ?_⟩
      intro r sh st _
      exact ⟨hrt, by simp [survivingTrips, hsf, hrt]⟩
    | some f =>
      by_cases hf : f = []
      · subst hf
        simp [hrt, hsf]
      · simp only [hrt, if_false, hsf, hf]
        refine ⟨by simp [assembleResult, hrt, hf], by simp [assembleResult, hrt, hf], ?_⟩
        intro r sh st _
        exact ⟨hrt, by simp [survivingTrips, hsf, hf]⟩

/-- Witness for claim 7 at a concrete dataset with no matching trips. -/
theorem claim7_witness :
    get_route_details dsOtherRoute "RX" 20240101 0 = RDResult.noTripsForRoute :=
  (claim7 dsOtherRoute "RX" 20240101 0).1.mpr (by decide)

/-! ### Claim C8 -/

/-- Claim C8 (confirmed): in a successful result the shape is built from
the first surviving trip's `shape_id`: it is a sorted-by-sequence
permutation of exactly the shape rows matching that id, its value is
independent of the shapes file's row order (given distinct sequence
numbers), it is empty when no row matches, and removing the shapes table
empties the shape while the call still succeeds with the same route map and
stop list. -/
theorem claim8 (ds : Dataset) (rid : String) (d : Int) (wd : Fin 7)
    (r : List (String × String)) (sh : List ShapePoint) (st : List StopRec) (t : TripRow)
    (df df' : List ShapeRow)
    (hok : get_route_details ds rid d wd = RDResult.ok r sh st)
    (hcol : "shape_id" ∈ ds.trips.cols)
    (ht : (survivingTrips ds rid d wd).head? = some t)
    (hdf : ds.shapes = some df)
    (hperm : df.Perm df')
    (hnd : ((df.filter (fun p => rawEq p.shape_id t.shape_id)).map
      (·.shape_pt_sequence)).Nodup) :
    ((df.filter (fun p => rawEq p.shape_id t.shape_id)).insertionSort seqLe).Sorted seqLe ∧
    ((df.filter (fun p => rawEq p.shape_id t.shape_id)).insertionSort seqLe).Perm
      (df.filter (fun p => rawEq p.shape_id t.shape_id)) ∧
    sh = ((df.filter (fun p => rawEq p.shape_id t.shape_id)).insertionSort seqLe).map
      (fun p => ShapePoint.mk p.shape_pt_lat p.shape_pt_lon) ∧
    (df.filter (fun p => rawEq p.shape_id t.shape_id) = [] → sh = []) ∧
    shapePointsOf ds.trips.cols (survivingTrips ds rid d wd) (some df)
      = shapePointsOf ds.trips.cols (survivingTrips ds rid d wd) (some df') ∧
    get_route_details { ds with shapes := none } rid d wd = RDResult.ok r [] st := by
  obtain ⟨hr, hsh, hst, hsv, hrt⟩ := get_route_details_ok_parts ds rid d wd r sh st hok
  obtain ⟨tl, hsv_eq⟩ : ∃ tl, survivingTrips ds rid d wd = t :: tl := by
    cases hsv' : survivingTrips ds rid d wd with
    | nil => rw [hsv'] at ht; exact absurd ht (by simp)
    | cons a tl =>
      rw [hsv'] at ht
      simp only [List.head?_cons, Option.some.injEq] at ht
      exact ⟨tl, by rw [ht]⟩
  have hshape_eq : shapePointsOf ds.trips.cols (survivingTrips ds rid d wd) (some df)
      = ((df.filter (fun p => rawEq p.shape_id t.shape_id)).insertionSort seqLe).map
        (fun p => ShapePoint.mk p.shape_pt_lat p.shape_pt_lon) := by
    rw [hsv_eq]
    unfold shapePointsOf
    rw [if_pos hcol]
  rw [hdf] at hsh
  refine ⟨List.sorted_insertionSort seqLe _, List.perm_insertionSort seqLe _, ?_, ?_, ?_, ?_⟩
  · rw [hsh, hshape_eq]
  · intro hemp
    rw [hsh, hshape_eq, hemp]
    rfl
  · rw [hsv_eq]
    simp only [shapePointsOf, hcol, if_true]
    rw [insertionSort_eq_of_perm _ _ (hperm.filter _) hnd]
  · rw [get_route_details_shapes_none, hok]

/-- Witness for claim 8: the scrambled shapes table of `dsShapes` and its
reversal produce the same shape output. -/
theorem claim8_witness :
    shapePointsOf dsShapes.trips.cols (survivingTrips dsShapes "1" 20240101 0)
        (some exShapes)
      = shapePointsOf dsShapes.trips.cols (survivingTrips dsShapes "1" 20240101 0)
        (some exShapes.reverse) :=
  (claim8 dsShapes "1" 20240101 0 [] [⟨vInt 1, vInt 10⟩, ⟨vInt 2, vInt 20⟩] []
    ⟨vStr "T1", vStr "1", vStr "S1", vStr "SH1"⟩ exShapes exShapes.reverse
    (by decide) (by decide) (by decide) rfl
    (by decide) (by decide)).2.2.2.2.1

/-! ### Claim C9 -/

/-- Claim C9 (confirmed): after a successful extraction, `upload_gtfs`
deletes the temporary zip artifact regardless of the validation outcome,
keeps every extracted file on disk, fails with the `InvalidGTFS` error when
a required table is missing from the extracted directory, and returns the
folder id when validation passes. -/
theorem claim9 (fs0 : FS) (base folder_uuid timestamp : String) (archive : List String) :
    [base, folder_uuid, "gtfs.zip"]
        ∉ (upload_gtfs fs0 base folder_uuid timestamp archive).1.files ∧
    (∀ name, name ∈ archive →
      [base, folder_uuid, timestamp, name]
        ∈ (upload_gtfs fs0 base folder_uuid timestamp archive).1.files) ∧
    (isValidGtfs (upload_gtfs fs0 base folder_uuid timestamp archive).1
        [base, folder_uuid, timestamp] = false →
      (upload_gtfs fs0 base folder_uuid timestamp archive).2
        = UploadResult.error "Uploaded file does not contain valid GTFS data") ∧
    (isValidGtfs (upload_gtfs fs0 base folder_uuid timestamp archive).1
        [base, folder_uuid, timestamp] = true →
      (upload_gtfs fs0 base folder_uuid timestamp archive).2
        = UploadResult.ok (folder_uuid ++ "/" ++ timestamp)) := by
  have hfst : (upload_gtfs fs0 base folder_uuid timestamp archive).1 =
      ⟨((fs0.files ++ [[base, folder_uuid, "gtfs.zip"]])
          ++ archive.map (fun name => [base, folder_uuid, timestamp] ++ [name])).filter
        (fun p => !(decide (p = [base, folder_uuid, "gtfs.zip"])))⟩ := by
    simp only [upload_gtfs]
    split <;> rfl
  have hsnd : (upload_gtfs fs0 base folder_uuid timestamp archive).2 =
      if isValidGtfs (⟨((fs0.files ++ [[base, folder_uuid, "gtfs.zip"]])
          ++ archive.map (fun name => [base, folder_uuid, timestamp] ++ [name])).filter
        (fun p => !(decide (p = [base, folder_uuid, "gtfs.zip"])))⟩ : FS)
          [base, folder_uuid, timestamp] = true then
        UploadResult.ok (folder_uuid ++ "/" ++ timestamp)
      else UploadResult.error "Uploaded file does not contain valid GTFS data" := by
    simp only [upload_gtfs]
    split <;> rfl
  refine ⟨?_, ?_, ?_, ?_⟩
  · rw [hfst]
    intro hmem
    simp only [List.mem_filter, decide_True, Bool.not_true, Bool.false_eq_true, and_false]
      at hmem
  · intro name hname
    rw [hfst]
    rw [List.mem_filter]
    constructor
    · rw [List.mem_append]
      right
      exact List.mem_map_of_mem _ hname
    · simp
  · intro hinvalid
    rw [hfst] at hinvalid
    rw [hsnd, hinvalid]
    rfl
  · intro hvalid
    rw [hfst] at hvalid
    rw [hsnd, hvalid]
    rfl

/-- Witness for claim 9: an archive missing three required tables leaves
the extracted file on disk, deletes the zip and fails; the full archive
succeeds. -/
theorem claim9_witness :
    ["data", "u1", "gtfs.zip"]
        ∉ (upload_gtfs ⟨[]⟩ "data" "u1" "20240101000000" ["routes.txt"]).1.files ∧
    ["data", "u1", "20240101000000", "routes.txt"]
        ∈ (upload_gtfs ⟨[]⟩ "data" "u1" "20240101000000" ["routes.txt"]).1.files ∧
    (upload_gtfs ⟨[]⟩ "data" "u1" "20240101000000" ["routes.txt"]).2
        = UploadResult.error "Uploaded file does not contain valid GTFS data" ∧
    (upload_gtfs ⟨[]⟩ "data" "u1" "20240101000000"
        ["routes.txt", "stops.txt", "trips.txt", "stop_times.txt"]).2
        = UploadResult.ok ("u1" ++ "/" ++ "20240101000000") :=
  ⟨(claim9 ⟨[]⟩ "data" "u1" "20240101000000" ["routes.txt"]).1,
   (claim9 ⟨[]⟩ "data" "u1" "20240101000000" ["routes.txt"]).2.1 "routes.txt" (by decide),
   (claim9 ⟨[]⟩ "data" "u1" "20240101000000" ["routes.txt"]).2.2.1 (by decide),
   (claim9 ⟨[]⟩ "data" "u1" "20240101000000"
     ["routes.txt", "stops.txt", "trips.txt", "stop_times.txt"]).2.2.2 (by decide)⟩

/-! ### Claim C10 -/

/-- Claim C10 (confirmed): the stop list of every successful result
consists of exactly the stops-table rows whose `stop_id` occurs among the
surviving trips' stop_times rows, one output record per such row in
stops-table order (so a stop shared by two trips appears once when the
stops table lists it once). -/
theorem claim10 (ds : Dataset) (rid : String) (d : Int) (wd : Fin 7)
    (r : List (String × String)) (sh : List ShapePoint) (st : List StopRec)
    (hok : get_route_details ds rid d wd = RDResult.ok r sh st) :
    st = (ds.stops.filter
        (fun s => valMem s.stop_id
          (tripStopIds (survivingTrips ds rid d wd) ds.stop_times))).map
      (fun s => StopRec.mk s.stop_id.pyStr (strOrEmpty s.stop_name) s.stop_lat s.stop_lon) ∧
    (∀ v, valMem v (tripStopIds (survivingTrips ds rid d wd) ds.stop_times) = true ↔
      ∃ strow, strow ∈ ds.stop_times ∧ strow.stop_id = v ∧
        ∃ tr, tr ∈ survivingTrips ds rid d wd ∧ strow.trip_id = tr.trip_id) := by
  obtain ⟨_, _, hst, _, _⟩ := get_route_details_ok_parts ds rid d wd r sh st hok
  refine ⟨by rw [hst]; rfl, ?_⟩
  intro v
  rw [valMem_iff]
  unfold tripStopIds
  rw [mem_pdUnique]
  simp only [List.mem_map, List.mem_flatMap, List.mem_filter, decide_eq_true_eq]
  constructor
  · rintro ⟨strow, ⟨tr, htr, hmem, heq⟩, hsid⟩
    exact ⟨strow, hmem, hsid, tr, htr, heq⟩
  · rintro ⟨strow, hmem, hsid, tr, htr, heq⟩
    exact ⟨strow, ⟨tr, htr, hmem, heq⟩, hsid⟩

/-- Witness for claim 10: two trips of `dsSharedStop` share stop `A`, which
appears once; stop `B` (NaN name) is also emitted, in stops-table order. -/
theorem claim10_witness :
    [StopRec.mk "A" "Alpha" (vInt 1) (vInt 2), StopRec.mk "B" "" (vInt 3) (vInt 4)] =
      (dsSharedStop.stops.filter
        (fun s => valMem s.stop_id
          (tripStopIds (survivingTrips dsSharedStop "R1" 20240101 0)
            dsSharedStop.stop_times))).map
      (fun s => StopRec.mk s.stop_id.pyStr (strOrEmpty s.stop_name) s.stop_lat s.stop_lon) :=
  (claim10 dsSharedStop "R1" 20240101 0 [] []
    [⟨"A", "Alpha", vInt 1, vInt 2⟩, ⟨"B", "", vInt 3, vInt 4⟩] (by decide)).1

end GTFSViewer
